import Mathlib

/-!
Verification of the `lab_5_scrapper/scrapper.py` crawler against its
natural-language specification.

The Python source is shallowly embedded: JSON configuration documents become
an inductive `JValue`, the validation routine `Config._validate_config_content`
becomes a total function into `Except`, the crawler loop `Crawler.find_articles`
becomes a fuel-indexed loop over an explicit fetch oracle, and the HTML parser
`HTMLParser` becomes functions over an abstract document structure that records
exactly the queries the source performs.
-/

/-! ## JSON values and the raw configuration document -/

/-- A JSON value as loaded by `json.load`.  Python booleans are a distinct
constructor, but note that in Python `bool` is a subclass of `int`, which the
`py_isinstance_int` test below reflects. -/
inductive JValue where
  | str (s : String)
  | int (n : Int)
  | bool (b : Bool)
  | list (xs : List JValue)
  | obj (fields : List (String × JValue))
  | null

/-- The raw configuration document with the seven keys the source reads
(`conf['seed_urls']`, `conf['total_articles_to_find_and_parse']`, ...).
All keys are taken as present; a missing key would be a `KeyError`, a failure
mode distinct from the validation errors studied here. -/
structure RawConfig where
  seed_urls : JValue
  total_articles_to_find_and_parse : JValue
  headers : JValue
  encoding : JValue
  timeout : JValue
  should_verify_certificate : JValue
  headless_mode : JValue

/-- The distinguishable exception classes raised by
`Config._validate_config_content`. -/
inductive ConfigError where
  | incorrectSeedURL
  | incorrectNumberOfArticles
  | numberOfArticlesOutOfRange
  | incorrectHeaders
  | incorrectEncoding
  | incorrectTimeout
  | incorrectVerify
deriving DecidableEq, Repr

/-- A failure escaping validation: either one of the scrapper's own exception
classes, or the `TypeError` that `re.match` raises on a non-string seed entry. -/
inductive PyError where
  | err (e : ConfigError)
  | typeError
deriving DecidableEq, Repr

/-- `isinstance(x, int)` in Python: true for `int` and also for `bool`,
since `bool` is a subclass of `int`. -/
def py_isinstance_int : JValue → Bool
  | .int _ => true
  | .bool _ => true
  | _ => false

/-- The integer value of a Python int-like object (`True` counts as 1 and
`False` as 0).  Only meaningful when `py_isinstance_int` holds. -/
def py_int_val : JValue → Int
  | .int n => n
  | .bool b => if b then 1 else 0
  | _ => 0

/-- `isinstance(x, dict)`. -/
def py_isinstance_dict : JValue → Bool
  | .obj _ => true
  | _ => false

/-- `isinstance(x, str)`. -/
def py_isinstance_str : JValue → Bool
  | .str _ => true
  | _ => false

/-- `isinstance(x, bool)` (an `int` is not a `bool`). -/
def py_isinstance_bool : JValue → Bool
  | .bool _ => true
  | _ => false

/-- Whether `re.match(r'https?://(www.)?', seed_url)` succeeds: the regex is
anchored at the start and the `(www.)?` group is optional, so a string matches
exactly when it starts with `http://` or `https://`. -/
def seed_url_matches (s : String) : Bool :=
  "http://".toList.isPrefixOf s.toList || "https://".toList.isPrefixOf s.toList

/-- `re.match` applied to one seed entry: on a non-string it raises
`TypeError`. -/
def match_seed : JValue → Except PyError Bool
  | .str s => .ok (seed_url_matches s)
  | _ => .error .typeError

/-- `all(re.match(r'https?://(www.)?', seed_url) for seed_url in conf['seed_urls'])`:
short-circuits at the first non-matching entry; entries past it are not
evaluated.  The empty list yields `True`. -/
def all_match : List JValue → Except PyError Bool
  | [] => .ok true
  | x :: xs =>
    match match_seed x with
    | .error e => .error e
    | .ok true => all_match xs
    | .ok false => .ok false

/-- `isinstance(conf['seed_urls'], list) and all(...)`: the conjunction is
lazy, so a non-list never reaches `re.match`. -/
def seeds_all_match : JValue → Except PyError Bool
  | .list xs => all_match xs
  | _ => .ok false

/-- `Config._validate_config_content`, check for check in source order:
seed urls, then number of articles (`isinstance` + `> 0`), then the
`range(1, 151)` membership, then headers, encoding, timeout
(`isinstance` + `0 <= t < 60`), and the two boolean flags. -/
def validate_config_content (conf : RawConfig) : Except PyError Unit :=
  match seeds_all_match conf.seed_urls with
  | .error e => .error e
  | .ok seedOk =>
    if seedOk = false then .error (.err .incorrectSeedURL)
    else
      let num := conf.total_articles_to_find_and_parse
      if py_isinstance_int num = false ∨ py_int_val num ≤ 0 then
        .error (.err .incorrectNumberOfArticles)
      else if py_int_val num < 1 ∨ 150 < py_int_val num then
        .error (.err .numberOfArticlesOutOfRange)
      else if py_isinstance_dict conf.headers = false then
        .error (.err .incorrectHeaders)
      else if py_isinstance_str conf.encoding = false then
        .error (.err .incorrectEncoding)
      else if py_isinstance_int conf.timeout = false
          ∨ py_int_val conf.timeout < 0 ∨ 60 ≤ py_int_val conf.timeout then
        .error (.err .incorrectTimeout)
      else if py_isinstance_bool conf.should_verify_certificate = false then
        .error (.err .incorrectVerify)
      else if py_isinstance_bool conf.headless_mode = false then
        .error (.err .incorrectVerify)
      else .ok ()

/-- A baseline configuration document that passes every check, used to probe
one field at a time. -/
def goodConfig : RawConfig :=
  { seed_urls := .list [.str "https://www.example.ru/category/news"]
  , total_articles_to_find_and_parse := .int 10
  , headers := .obj []
  , encoding := .str "utf-8"
  , timeout := .int 10
  , should_verify_certificate := .bool true
  , headless_mode := .bool false }

/-! ## Claims about configuration validation (C2 - C5) -/

/-- The baseline configuration with the seed-url list replaced by the given
strings. -/
def seedsConfig (xs : List String) : RawConfig :=
  { goodConfig with seed_urls := .list (xs.map JValue.str) }

/-- The baseline configuration with the article-count field replaced. -/
def countConfig (n : JValue) : RawConfig :=
  { goodConfig with total_articles_to_find_and_parse := n }

/-- The baseline configuration with the timeout field replaced. -/
def timeoutConfig (t : JValue) : RawConfig :=
  { goodConfig with timeout := t }

/-! ## The crawler: url discovery (`Crawler`) -/

/-- One `div` with class `post-details` on a listing page.  `anchors` lists
the `href` attributes of the anchor elements that `div.select('a')` returns,
in document order (the source reads `urls['href']`, so each anchor is
represented by its `href` string). -/
structure Block where
  anchors : List String

/-- A parsed listing page: the blocks that
`find_all('div', {'class': 'post-details'})` returns, in document order. -/
structure ListingDoc where
  blocks : List Block

/-- The outcome of `make_request` on a listing url: the HTTP success flag
`response.ok` and the parsed body. -/
structure FetchResult where
  ok : Bool
  doc : ListingDoc

/-- `Crawler._extract_url`: `url` starts as the empty string; for every
`post-details` block in order, for every anchor in the block in order, `url`
is overwritten with that anchor's `href`; the method returns
`self.url_pattern + url`. -/
def extract_url (url_pattern : String) (doc : ListingDoc) : String :=
  url_pattern
    ++ doc.blocks.foldl (fun url b => b.anchors.foldl (fun _ a => a) url) ""

/-- One full `for url in self.get_search_urls()` pass of the body of
`Crawler.find_articles`.  The fetch oracle is indexed by a request counter so
that successive requests may answer differently.  A non-ok response is
skipped (`continue`); an ok response appends exactly one extracted url. -/
def crawl_pass (url_pattern : String) (fetch : Nat → String → FetchResult) :
    List String → Nat → List String → List String × Nat
  | [], k, urls => (urls, k)
  | seed :: seeds, k, urls =>
    let r := fetch k seed
    crawl_pass url_pattern fetch seeds (k + 1)
      (if r.ok then urls ++ [extract_url url_pattern r.doc] else urls)

/-- The urls a single pass appends: one per seed whose fetch is ok, in seed
order. -/
def pass_urls (url_pattern : String) (fetch : Nat → String → FetchResult) :
    List String → Nat → List String
  | [], _ => []
  | seed :: seeds, k =>
    let r := fetch k seed
    (if r.ok then [extract_url url_pattern r.doc] else [])
      ++ pass_urls url_pattern fetch seeds (k + 1)

/-- `Crawler.find_articles` with explicit fuel bounding the number of
iterations of the `while len(urls) < self.config.get_num_articles()` loop;
`none` means the loop is still running when the fuel runs out, so a result of
`none` for every fuel is non-termination. -/
def find_articles_loop (num : Nat) (url_pattern : String)
    (seeds : List String) (fetch : Nat → String → FetchResult) :
    Nat → Nat → List String → Option (List String)
  | 0, _, _ => none
  | fuel + 1, k, urls =>
    if urls.length < num then
      let p := crawl_pass url_pattern fetch seeds k urls
      find_articles_loop num url_pattern seeds fetch fuel p.2 p.1
    else some urls

/-- `Crawler.find_articles`, started as in the source with the empty local
url list. -/
def find_articles (num : Nat) (url_pattern : String) (seeds : List String)
    (fetch : Nat → String → FetchResult) (fuel : Nat) :
    Option (List String) :=
  find_articles_loop num url_pattern seeds fetch fuel 0 []

/-! ## Claims about url extraction (C6, C10) -/

/-- A fetch oracle answering every request successfully with the same parsed
listing page. -/
def const_fetch (d : ListingDoc) : Nat → String → FetchResult :=
  fun _ _ => ⟨true, d⟩

/-! ## Date normalization (`HTMLParser.unify_date_format`) -/

/-- A calendar date as carried by a `datetime.datetime` value (the time
fields play no role here). -/
structure Date where
  year : Nat
  month : Nat
  day : Nat
deriving DecidableEq, Repr

/-- The `datetime` leap-year rule (proleptic Gregorian). -/
def isLeap (y : Nat) : Bool :=
  (y % 4 == 0 && !(y % 100 == 0)) || y % 400 == 0

/-- Days in a month, as enforced by the `datetime.datetime` constructor. -/
def daysInMonth (y m : Nat) : Nat :=
  if m = 2 then (if isLeap y then 29 else 28)
  else if m = 4 ∨ m = 6 ∨ m = 9 ∨ m = 11 then 30
  else 31

/-- Validity of a calendar date per the `datetime.datetime` constructor:
`MINYEAR = 1 <= year <= MAXYEAR = 9999`, `1 <= month <= 12`,
`1 <= day <= days in that month`. -/
def validDate (y m d : Nat) : Bool :=
  1 ≤ y && y ≤ 9999 && 1 ≤ m && m ≤ 12 && 1 ≤ d && d ≤ daysInMonth y m

/-- Decimal value of a digit character. -/
def dval (c : Char) : Nat := c.toNat - 48

/-- Digit character class 0-9. -/
def isDigit09 (c : Char) : Bool := '0' ≤ c && c ≤ '9'

/-- Digit character class 1-9. -/
def isDigit19 (c : Char) : Bool := '1' ≤ c && c ≤ '9'

/-- The alternatives of the regex fragment CPython `_strptime` compiles for
`%d` (in order: `3` then `0` or `1`; `1` or `2` then a digit; `0` then 1-9;
a single digit 1-9; a space then 1-9), each yielding the parsed value and the
remaining input.  The list keeps regex alternation order, so backtracking is
trying later elements. -/
def dayAlts (cs : List Char) : List (Nat × List Char) :=
  (match cs with
   | '3' :: c :: rest =>
     if c == '0' || c == '1' then [(30 + dval c, rest)] else []
   | _ => [])
  ++ (match cs with
   | c1 :: c2 :: rest =>
     if (c1 == '1' || c1 == '2') && isDigit09 c2 then
       [(10 * dval c1 + dval c2, rest)]
     else []
   | _ => [])
  ++ (match cs with
   | '0' :: c :: rest => if isDigit19 c then [(dval c, rest)] else []
   | _ => [])
  ++ (match cs with
   | c :: rest => if isDigit19 c then [(dval c, rest)] else []
   | _ => [])
  ++ (match cs with
   | ' ' :: c :: rest => if isDigit19 c then [(dval c, rest)] else []
   | _ => [])

/-- The alternatives for `%m` (in order: `1` then `0`-`2`; `0` then 1-9; a
single digit 1-9). -/
def monthAlts (cs : List Char) : List (Nat × List Char) :=
  (match cs with
   | '1' :: c :: rest =>
     if c == '0' || c == '1' || c == '2' then [(10 + dval c, rest)] else []
   | _ => [])
  ++ (match cs with
   | '0' :: c :: rest => if isDigit19 c then [(dval c, rest)] else []
   | _ => [])
  ++ (match cs with
   | c :: rest => if isDigit19 c then [(dval c, rest)] else []
   | _ => [])

/-- `%Y`: exactly four digit characters. -/
def yearParse : List Char → Option (Nat × List Char)
  | c1 :: c2 :: c3 :: c4 :: rest =>
    if isDigit09 c1 && isDigit09 c2 && isDigit09 c3 && isDigit09 c4 then
      some (((dval c1 * 10 + dval c2) * 10 + dval c3) * 10 + dval c4, rest)
    else none
  | _ => none

/-- After day and month: the second literal dot, the four year digits, and
the no-leftover-data check of `strptime`. -/
def afterMonth (d m : Nat) : List Char → Option Date
  | '.' :: cs =>
    match yearParse cs with
    | some (y, []) => some ⟨y, m, d⟩
    | _ => none
  | _ => none

/-- After the day: the first literal dot, then the month alternatives with
backtracking. -/
def afterDay (d : Nat) : List Char → Option Date
  | '.' :: cs => (monthAlts cs).findSome? fun p => afterMonth d p.1 p.2
  | _ => none

/-- The full match of the regex `_strptime` compiles for `%d.%m.%Y`:
day alternatives, literal dot, month alternatives, literal dot, four year
digits, end of input, with alternatives tried in order. -/
def parseDMYList (cs : List Char) : Option Date :=
  (dayAlts cs).findSome? fun p => afterDay p.1 p.2

/-- `HTMLParser.unify_date_format`, that is
`datetime.datetime.strptime(date_str, '%d.%m.%Y')`: the regex match against
the fixed format, then the construction of the `datetime` value, which
enforces calendar validity.  `none` is the raised `ValueError`. -/
def unify_date_format (s : String) : Option Date :=
  match parseDMYList s.toList with
  | some dt => if validDate dt.year dt.month dt.day then some dt else none
  | none => none

/-- The character of a decimal digit value. -/
def digitChar (n : Nat) : Char := Char.ofNat (48 + n)

/-- Modelled from the spec: the reformatting step of the round-trip property
("normalize then reformat back to the same string") is not part of the source
file; per the spec the pattern is `DD.MM.YYYY` with a two-digit zero-padded
day, a two-digit zero-padded month and a four-digit zero-padded year. -/
def formatDMY (dt : Date) : String :=
  ⟨[digitChar (dt.day / 10), digitChar (dt.day % 10), '.',
    digitChar (dt.month / 10), digitChar (dt.month % 10), '.',
    digitChar (dt.year / 1000), digitChar (dt.year / 100 % 10),
    digitChar (dt.year / 10 % 10), digitChar (dt.year % 10)]⟩

/-! ## The article extractor (`HTMLParser`) -/

/-- Modelled from the spec: the `Article` record from `core_utils` (that
module is not part of the source file).  Per the spec, the record is created
empty at extraction start, identified by the source url and a positive id,
with fields: title (string, empty until set), author list (ordered, may later
hold the sentinel), publication date (optional calendar date), topic list
(ordered), body text (string). -/
structure Article where
  url : String
  article_id : Nat
  title : String
  author : List String
  date : Option Date
  topics : List String
  text : String
deriving DecidableEq, Repr

/-- The record `HTMLParser.__init__` creates via
`Article(self.full_url, self.article_id)`: every content field at its empty
default. -/
def article_init (url : String) (aid : Nat) : Article :=
  { url := url, article_id := aid, title := "", author := [],
    date := none, topics := [], text := "" }

/-- One `div` element of the article page; `contentTexts` lists the `.text`
values of its nested divs with class `entry-content entry clearfix`
(`find_all` inside it), in document order. -/
structure DivNode where
  contentTexts : List String

/-- A parsed article page, recording exactly the structural queries
`HTMLParser` performs: the list of all `div` elements
(`article_soup.find_all('div')`), the text of the node
`find(class_='post-title entry-title')` when one matches, the text of the
node `find(tag_='meta content', property_='og:site_name')` when one matches,
the text of the node `find(class_='date meta-item tie-icon')` when one
matches, and the texts of all nodes `find_all(class_='mega-links-head')` in
document order. -/
structure ArticleDoc where
  divs : List DivNode
  titleNode : Option String
  authorNode : Option String
  dateNode : Option String
  topicNodes : List String

/-- The outcome of `make_request` on the article url. -/
structure ArticleFetch where
  ok : Bool
  doc : ArticleDoc

/-- `HTMLParser._fill_article_with_text`: take all divs; if there is at
least one, join the texts of the content-class divs nested in the first;
assign the join (the empty string when there is no div at all). -/
def fill_article_with_text (doc : ArticleDoc) (a : Article) : Article :=
  let texts :=
    match doc.divs with
    | [] => []
    | d :: _ => d.contentTexts
  { a with text := String.join texts }

/-- `HTMLParser._fill_article_with_meta_information`: set the title if its
node matches; append the author text, or the sentinel `NOT FOUND` when no
node matches; if a date node matches, normalize its text — a `ValueError`
from `strptime` propagates (`none` here) and the topics are then never
appended; finally append every topic text. -/
def fill_article_with_meta_information (doc : ArticleDoc) (a : Article) :
    Option Article :=
  let a1 :=
    match doc.titleNode with
    | some t => { a with title := t }
    | none => a
  let a2 :=
    match doc.authorNode with
    | none => { a1 with author := a1.author ++ ["NOT FOUND"] }
    | some t => { a1 with author := a1.author ++ [t] }
  match doc.dateNode with
  | some s =>
    match unify_date_format s with
    | some dt => some { a2 with date := some dt, topics := a2.topics ++ doc.topicNodes }
    | none => none
  | none => some { a2 with topics := a2.topics ++ doc.topicNodes }

/-- `HTMLParser.parse`: fetch the article url; on a successful response fill
the record from the parsed body (text, then meta information); on a
non-successful response do nothing; return `self.article`.  `none` is a
propagated exception. -/
def html_parser_parse (r : ArticleFetch) (a : Article) : Option Article :=
  if r.ok then
    fill_article_with_meta_information r.doc (fill_article_with_text r.doc a)
  else some a

/-- An article page with nothing the parser looks for. -/
def emptyArticleDoc : ArticleDoc :=
  { divs := [], titleNode := none, authorNode := none, dateNode := none,
    topicNodes := [] }

/-! ## Theorems: the claims and their supporting lemmas -/

example : validate_config_content goodConfig = .ok () := rfl

lemma all_match_map_str (xs : List String) :
    all_match (xs.map JValue.str) = .ok (xs.all seed_url_matches) := by
  induction xs with
  | nil => rfl
  | cons x xs ih =>
    simp only [List.map_cons, all_match, match_seed, List.all_cons]
    cases h : seed_url_matches x
    · simp [h]
    · simp [h, ih]

lemma validate_seedsConfig (xs : List String) :
    validate_config_content (seedsConfig xs)
      = if xs.all seed_url_matches = true then .ok ()
        else .error (.err .incorrectSeedURL) := by
  cases hb : xs.all seed_url_matches
  · simp [validate_config_content, seedsConfig, seeds_all_match,
      all_match_map_str, hb]
  · simp [validate_config_content, seedsConfig, seeds_all_match,
      all_match_map_str, hb]
    rfl

/-- Claim C2 (code bug evidence): the code accepts a timeout of exactly 0,
because the check is the inclusive `0 <= timeout < 60`; a timeout of exactly
60 is rejected as the claim states.  The claim (and the docstring of
`IncorrectTimeoutError`, "positive integer less than 60") requires 0 to be
rejected as well. -/
theorem C2_timeout_zero_accepted :
    validate_config_content (timeoutConfig (.int 0)) = .ok ()
    ∧ validate_config_content (timeoutConfig (.int 60))
        = .error (.err .incorrectTimeout) :=
  ⟨rfl, rfl⟩

/-- Claim C3, counterexample: an empty seed-url list passes validation
(`all` over an empty generator is `True`), contradicting the claim that an
empty sequence fails with `IncorrectSeedURLError`. -/
theorem C3_empty_seeds_pass :
    validate_config_content (seedsConfig []) = .ok () :=
  rfl

/-- Claim C3, amended: validation passes the seed-url check for every
all-matching list of strings, including the empty list, and fails with
`IncorrectSeedURLError` exactly when some entry does not match the
`http(s)://` pattern; non-emptiness is not checked. -/
theorem C3_amended (xs : List String) :
    ((∀ s ∈ xs, seed_url_matches s = true) →
      validate_config_content (seedsConfig xs) = .ok ())
    ∧ ((∃ s ∈ xs, seed_url_matches s = false) →
      validate_config_content (seedsConfig xs)
        = .error (.err .incorrectSeedURL)) := by
  constructor
  · intro hall
    have h : xs.all seed_url_matches = true := List.all_eq_true.mpr hall
    rw [validate_seedsConfig, h, if_pos rfl]
  · rintro ⟨s, hs, hfalse⟩
    have h : xs.all seed_url_matches = false := by
      rcases hb : xs.all seed_url_matches with _ | _
      · rfl
      · have := List.all_eq_true.mp hb s hs
        rw [this] at hfalse
        exact absurd hfalse (by simp)
    rw [validate_seedsConfig, h]
    simp

/-- Witness for C3_amended at concrete inputs. -/
theorem C3_amended_witness :
    validate_config_content (seedsConfig ["https://www.x.ru/category/a"]) = .ok ()
    ∧ validate_config_content (seedsConfig ["ftp://x.ru"])
        = .error (.err .incorrectSeedURL) :=
  ⟨(C3_amended ["https://www.x.ru/category/a"]).1 (by decide),
   (C3_amended ["ftp://x.ru"]).2 ⟨"ftp://x.ru", by decide, by decide⟩⟩

/-- Claim C4, counterexample: the integer 0 is outside the closed range
[1,150], yet validation fails with `IncorrectNumberOfArticlesError` (the
`> 0` check fires first), not with `NumberOfArticlesOutOfRangeError` as the
claim requires. -/
theorem C4_zero_gives_invalid_count :
    validate_config_content (countConfig (.int 0))
      = .error (.err .incorrectNumberOfArticles)
    ∧ validate_config_content (countConfig (.int 0))
      ≠ .error (.err .numberOfArticlesOutOfRange) := by
  have heq : validate_config_content (countConfig (.int 0))
      = .error (.err .incorrectNumberOfArticles) := rfl
  refine ⟨heq, fun h => ?_⟩
  rw [heq] at h
  injection h with h1
  injection h1 with h2
  cases h2

/-- Claim C4, amended: an integer count ≤ 0 fails with
`IncorrectNumberOfArticlesError`, and an integer count > 150 fails with
`NumberOfArticlesOutOfRangeError`; in both cases validation fails rather than
clamping. -/
theorem C4_amended (n : Int) :
    (n ≤ 0 → validate_config_content (countConfig (.int n))
        = .error (.err .incorrectNumberOfArticles))
    ∧ (150 < n → validate_config_content (countConfig (.int n))
        = .error (.err .numberOfArticlesOutOfRange)) := by
  constructor
  · intro h
    simp [validate_config_content, countConfig, goodConfig, seeds_all_match,
      all_match, match_seed, seed_url_matches, py_isinstance_int, py_int_val, h]
  · intro h
    have h1 : ¬ n ≤ 0 := by omega
    simp [validate_config_content, countConfig, goodConfig, seeds_all_match,
      all_match, match_seed, seed_url_matches, py_isinstance_int, py_int_val,
      h, h1]

/-- Witness for C4_amended at the concrete counts 0 and 151. -/
theorem C4_amended_witness :
    validate_config_content (countConfig (.int 0))
      = .error (.err .incorrectNumberOfArticles)
    ∧ validate_config_content (countConfig (.int 151))
      = .error (.err .numberOfArticlesOutOfRange) :=
  ⟨(C4_amended 0).1 (by decide), (C4_amended 151).2 (by decide)⟩

/-- Claim C5 (code bug evidence): a boolean count `true` passes validation,
because in Python `isinstance(True, int)` holds, `True > 0` holds, and
`True in range(1, 151)` holds.  The claim (and the spec's canonical stricter
rule) requires booleans to be rejected with
`IncorrectNumberOfArticlesError`. -/
theorem C5_bool_count_accepted :
    validate_config_content (countConfig (.bool true)) = .ok () :=
  rfl

lemma crawl_pass_spec (url_pattern : String)
    (fetch : Nat → String → FetchResult) (seeds : List String) :
    ∀ k urls, crawl_pass url_pattern fetch seeds k urls
      = (urls ++ pass_urls url_pattern fetch seeds k, k + seeds.length) := by
  induction seeds with
  | nil => intro k urls; simp [crawl_pass, pass_urls]
  | cons s ss ih =>
    intro k urls
    simp only [crawl_pass, pass_urls, ih, List.length_cons]
    cases (fetch k s).ok <;> simp <;> omega

lemma pass_urls_all_fail (url_pattern : String)
    (fetch : Nat → String → FetchResult)
    (hfail : ∀ k s, (fetch k s).ok = false) :
    ∀ seeds k, pass_urls url_pattern fetch seeds k = [] := by
  intro seeds
  induction seeds with
  | nil => intro k; rfl
  | cons s ss ih => intro k; simp [pass_urls, hfail, ih]

/-- Claim C1 (code bug evidence): `find_articles` is the unbounded
retry-until-count loop, not the single bounded pass the specification
mandates.  Whenever the target count is at least 1 and every fetch answers
with a non-success response, no amount of fuel makes the `while` loop finish:
discovery does not terminate. -/
theorem C1_unbounded_loop (num : Nat) (url_pattern : String)
    (seeds : List String) (fetch : Nat → String → FetchResult)
    (hnum : 1 ≤ num) (hfail : ∀ k s, (fetch k s).ok = false) :
    ∀ fuel, find_articles num url_pattern seeds fetch fuel = none := by
  have key : ∀ fuel k,
      find_articles_loop num url_pattern seeds fetch fuel k [] = none := by
    intro fuel
    induction fuel with
    | zero => intro k; rfl
    | succ n ih =>
      intro k
      simp only [find_articles_loop, crawl_pass_spec,
        pass_urls_all_fail url_pattern fetch hfail, List.append_nil,
        List.length_nil]
      rw [if_pos (show 0 < num from hnum)]
      exact ih (k + seeds.length)
  intro fuel
  exact key fuel 0

/-- Witness for C1_unbounded_loop: a concrete configuration (target count 1,
one seed) and the everywhere-failing fetch oracle. -/
theorem C1_unbounded_loop_witness :
    find_articles 1 "https://x.ru" ["https://x.ru/category/a"]
      (fun _ _ => ⟨false, ⟨[]⟩⟩) 1000 = none :=
  C1_unbounded_loop 1 "https://x.ru" ["https://x.ru/category/a"]
    (fun _ _ => ⟨false, ⟨[]⟩⟩) (by decide) (fun _ _ => rfl) 1000

lemma foldl_overwrite (l : List String) :
    ∀ u, l.foldl (fun _ a => a) u = l.getLast?.getD u := by
  induction l with
  | nil => intro u; rfl
  | cons a l ih =>
    intro u
    rw [List.foldl_cons, ih a]
    cases l with
    | nil => rfl
    | cons b l2 =>
      rw [List.getLast?_cons_cons]
      cases h : (b :: l2).getLast? with
      | none => simp [List.getLast?_eq_none_iff] at h
      | some x => simp [h]

lemma getLast?_append_getD (A J : List String) (u : String) :
    (A ++ J).getLast?.getD u = J.getLast?.getD (A.getLast?.getD u) := by
  cases J with
  | nil => simp
  | cons c J2 =>
    rw [List.getLast?_append_of_ne_nil A (by simp)]
    cases h : (c :: J2).getLast? with
    | none => simp [List.getLast?_eq_none_iff] at h
    | some x => simp [h]

lemma extract_foldl (blocks : List Block) :
    ∀ u, blocks.foldl (fun url b => b.anchors.foldl (fun _ a => a) url) u
      = ((blocks.map Block.anchors).flatten).getLast?.getD u := by
  induction blocks with
  | nil => intro u; rfl
  | cons b bs ih =>
    intro u
    rw [List.foldl_cons, ih, foldl_overwrite, List.map_cons,
      List.flatten_cons, getLast?_append_getD]

/-- Claim C6, counterexample: a listing page with two `post-details` blocks,
holding anchors `/a` and `/b` respectively.  The claim predicts one appended
url per block (`.../a` then `.../b`); the code appends a single url built from
the last anchor only. -/
theorem C6_last_anchor_counterexample :
    (crawl_pass "https://x.ru" (const_fetch ⟨[⟨["/a"]⟩, ⟨["/b"]⟩]⟩)
        ["https://x.ru/category/a"] 0 []).1 = ["https://x.ru/b"]
    ∧ (crawl_pass "https://x.ru" (const_fetch ⟨[⟨["/a"]⟩, ⟨["/b"]⟩]⟩)
        ["https://x.ru/category/a"] 0 []).1
      ≠ ["https://x.ru/a", "https://x.ru/b"] := by
  constructor
  · rfl
  · rw [show (crawl_pass "https://x.ru" (const_fetch ⟨[⟨["/a"]⟩, ⟨["/b"]⟩]⟩)
        ["https://x.ru/category/a"] 0 []).1 = ["https://x.ru/b"] from rfl]
    decide

/-- Claim C6, amended: for every successfully fetched listing page, discovery
appends exactly ONE url, namely `url_pattern` concatenated with the href of
the last anchor of the last anchor-bearing `post-details` block (the empty
relative path when there is none); each pass appends one url per successful
fetch, not one per block. -/
theorem C6_one_url_per_page (url_pattern : String)
    (fetch : Nat → String → FetchResult) :
    (∀ blocks, extract_url url_pattern ⟨blocks⟩
        = url_pattern
          ++ ((blocks.map Block.anchors).flatten.getLast?.getD ""))
    ∧ ∀ seeds k urls, crawl_pass url_pattern fetch seeds k urls
        = (urls ++ pass_urls url_pattern fetch seeds k, k + seeds.length) := by
  refine ⟨fun blocks => ?_,
    fun seeds k urls => crawl_pass_spec url_pattern fetch seeds k urls⟩
  unfold extract_url
  rw [extract_foldl]

/-- Claim C10: on a listing page whose `post-details` blocks hold no anchor
at all (in particular a page with no such block), `_extract_url` returns the
bare base-url prefix `url_pattern + ''`, and `find_articles` still appends
this value to the discovered urls. -/
theorem C10_no_anchor_gives_base (url_pattern : String) (blocks : List Block)
    (hempty : ∀ b ∈ blocks, b.anchors = [])
    (fetch : Nat → String → FetchResult) (k : Nat) (seed : String)
    (acc : List String) (hok : fetch k seed = ⟨true, ⟨blocks⟩⟩) :
    extract_url url_pattern ⟨blocks⟩ = url_pattern ++ ""
    ∧ (crawl_pass url_pattern fetch [seed] k acc).1
        = acc ++ [url_pattern ++ ""] := by
  have hflat : (blocks.map Block.anchors).flatten = [] := by
    rw [List.flatten_eq_nil_iff]
    intro a ha
    rcases List.mem_map.mp ha with ⟨b, hb, rfl⟩
    exact hempty b hb
  have hextract : extract_url url_pattern ⟨blocks⟩ = url_pattern ++ "" := by
    unfold extract_url
    rw [extract_foldl, hflat]
    rfl
  refine ⟨hextract, ?_⟩
  simp only [crawl_pass, hok]
  rw [hextract]
  simp

/-- Witness for C10_no_anchor_gives_base: a page with a single anchor-free
`post-details` block and an always-successful fetch. -/
theorem C10_no_anchor_witness :
    extract_url "https://x.ru" ⟨[⟨[]⟩]⟩ = "https://x.ru" ++ ""
    ∧ (crawl_pass "https://x.ru" (const_fetch ⟨[⟨[]⟩]⟩) ["s"] 0 []).1
        = [] ++ ["https://x.ru" ++ ""] :=
  C10_no_anchor_gives_base "https://x.ru" [⟨[]⟩] (by simp)
    (const_fetch ⟨[⟨[]⟩]⟩) 0 "s" [] rfl

example : unify_date_format "01.02.2023" = some ⟨2023, 2, 1⟩ := rfl

example : unify_date_format "31.02.2023" = none := rfl

example : unify_date_format "1.2.2023" = some ⟨2023, 2, 1⟩ := rfl

example : unify_date_format "01.02.23" = none := rfl

example : formatDMY ⟨2023, 2, 1⟩ = "01.02.2023" := by decide

lemma findSome?_cons_some {α β : Type} (a : α) (l : List α)
    (f : α → Option β) (b : β) (h : f a = some b) :
    (a :: l).findSome? f = some b := by
  simp [List.findSome?_cons, h]

lemma daysInMonth_le (y m : Nat) : daysInMonth y m ≤ 31 := by
  unfold daysInMonth
  split_ifs <;> omega

lemma dval_digitChar (n : Nat) (h : n ≤ 9) : dval (digitChar n) = n := by
  interval_cases n <;> rfl

lemma isDigit09_digitChar (n : Nat) (h : n ≤ 9) :
    isDigit09 (digitChar n) = true := by
  interval_cases n <;> rfl

lemma dayAlts_head (d : Nat) (h1 : 1 ≤ d) (h2 : d ≤ 31) (rest : List Char) :
    ∃ tl, dayAlts (digitChar (d / 10) :: digitChar (d % 10) :: rest)
      = (d, rest) :: tl := by
  interval_cases d <;> exact ⟨_, rfl⟩

lemma monthAlts_head (m : Nat) (h1 : 1 ≤ m) (h2 : m ≤ 12) (rest : List Char) :
    ∃ tl, monthAlts (digitChar (m / 10) :: digitChar (m % 10) :: rest)
      = (m, rest) :: tl := by
  interval_cases m <;> exact ⟨_, rfl⟩

lemma yearParse_fourDig (y : Nat) (h : y ≤ 9999) (rest : List Char) :
    yearParse (digitChar (y / 1000) :: digitChar (y / 100 % 10)
        :: digitChar (y / 10 % 10) :: digitChar (y % 10) :: rest)
      = some (y, rest) := by
  have h1 : y / 1000 ≤ 9 := by omega
  have h2 : y / 100 % 10 ≤ 9 := by omega
  have h3 : y / 10 % 10 ≤ 9 := by omega
  have h4 : y % 10 ≤ 9 := by omega
  simp only [yearParse, isDigit09_digitChar _ h1, isDigit09_digitChar _ h2,
    isDigit09_digitChar _ h3, isDigit09_digitChar _ h4,
    dval_digitChar _ h1, dval_digitChar _ h2, dval_digitChar _ h3,
    dval_digitChar _ h4, Bool.and_self, if_true]
  congr 2
  omega

lemma parse_format (dt : Date)
    (h : validDate dt.year dt.month dt.day = true) :
    parseDMYList (formatDMY dt).toList = some dt := by
  obtain ⟨y, m, d⟩ := dt
  simp only [validDate, Bool.and_eq_true, decide_eq_true_eq] at h
  obtain ⟨⟨⟨⟨⟨hy1, hy2⟩, hm1⟩, hm2⟩, hd1⟩, hd2⟩ := h
  have hd31 : d ≤ 31 := le_trans hd2 (daysInMonth_le y m)
  have hlist : (formatDMY ⟨y, m, d⟩).toList
      = digitChar (d / 10) :: digitChar (d % 10)
        :: '.' :: digitChar (m / 10) :: digitChar (m % 10)
        :: '.' :: digitChar (y / 1000) :: digitChar (y / 100 % 10)
        :: digitChar (y / 10 % 10) :: digitChar (y % 10) :: [] := rfl
  rw [parseDMYList, hlist]
  obtain ⟨tl, htl⟩ := dayAlts_head d hd1 hd31
    ('.' :: digitChar (m / 10) :: digitChar (m % 10)
      :: '.' :: digitChar (y / 1000) :: digitChar (y / 100 % 10)
      :: digitChar (y / 10 % 10) :: digitChar (y % 10) :: [])
  rw [htl]
  apply findSome?_cons_some
  show afterDay d _ = some ⟨y, m, d⟩
  rw [afterDay]
  obtain ⟨tl2, htl2⟩ := monthAlts_head m hm1 hm2
    ('.' :: digitChar (y / 1000) :: digitChar (y / 100 % 10)
      :: digitChar (y / 10 % 10) :: digitChar (y % 10) :: [])
  rw [htl2]
  apply findSome?_cons_some
  show afterMonth d m _ = some ⟨y, m, d⟩
  rw [afterMonth]
  rw [yearParse_fourDig y hy2]

/-- Claim C9: round trip of date normalization.  Every date string of the
form `DD.MM.YYYY` denoting a valid calendar date is `formatDMY dt` for its
(unique) date value `dt`; normalizing it with `unify_date_format` succeeds
and reformatting the result with the same pattern yields the original
string. -/
theorem C9_date_roundtrip (dt : Date)
    (h : validDate dt.year dt.month dt.day = true) :
    (unify_date_format (formatDMY dt)).map formatDMY
      = some (formatDMY dt) := by
  rw [unify_date_format, parse_format dt h]
  simp [h]

/-- Witness for C9_date_roundtrip at the concrete date 01.02.2023. -/
theorem C9_date_roundtrip_witness :
    (unify_date_format (formatDMY ⟨2023, 2, 1⟩)).map formatDMY
      = some (formatDMY ⟨2023, 2, 1⟩) :=
  C9_date_roundtrip ⟨2023, 2, 1⟩ (by decide)

/-- Claim C7: when the fetch of the article url answers with a non-success
response, `HTMLParser.parse` returns the freshly initialized record with
every field at its empty default — no error is raised and no field is
modified. -/
theorem C7_non_success_keeps_defaults (url : String) (aid : Nat)
    (r : ArticleFetch) (hfail : r.ok = false) :
    html_parser_parse r (article_init url aid) = some (article_init url aid)
    ∧ (article_init url aid).title = ""
    ∧ (article_init url aid).author = []
    ∧ (article_init url aid).date = none
    ∧ (article_init url aid).topics = []
    ∧ (article_init url aid).text = "" := by
  refine ⟨?_, rfl, rfl, rfl, rfl, rfl⟩
  simp [html_parser_parse, hfail]

/-- Witness for C7_non_success_keeps_defaults at a concrete non-success
response. -/
theorem C7_non_success_witness :
    html_parser_parse ⟨false, emptyArticleDoc⟩ (article_init "https://x.ru/a" 1)
        = some (article_init "https://x.ru/a" 1)
    ∧ (article_init "https://x.ru/a" 1).title = ""
    ∧ (article_init "https://x.ru/a" 1).author = []
    ∧ (article_init "https://x.ru/a" 1).date = none
    ∧ (article_init "https://x.ru/a" 1).topics = []
    ∧ (article_init "https://x.ru/a" 1).text = "" :=
  C7_non_success_keeps_defaults "https://x.ru/a" 1 ⟨false, emptyArticleDoc⟩ rfl

lemma fill_meta_author (doc : ArticleDoc) (a rec : Article)
    (hauthor : doc.authorNode = none)
    (h : fill_article_with_meta_information doc a = some rec) :
    rec.author = a.author ++ ["NOT FOUND"] := by
  unfold fill_article_with_meta_information at h
  rw [hauthor] at h
  cases htitle : doc.titleNode with
  | none =>
    rw [htitle] at h
    cases hdate : doc.dateNode with
    | none =>
      rw [hdate] at h
      obtain rfl := Option.some_injective _ h
      rfl
    | some s =>
      rw [hdate] at h
      dsimp only at h
      cases hu : unify_date_format s with
      | none => rw [hu] at h; exact absurd h (by simp)
      | some dt =>
        rw [hu] at h
        obtain rfl := Option.some_injective _ h
        rfl
  | some t =>
    rw [htitle] at h
    cases hdate : doc.dateNode with
    | none =>
      rw [hdate] at h
      obtain rfl := Option.some_injective _ h
      rfl
    | some s =>
      rw [hdate] at h
      dsimp only at h
      cases hu : unify_date_format s with
      | none => rw [hu] at h; exact absurd h (by simp)
      | some dt =>
        rw [hu] at h
        obtain rfl := Option.some_injective _ h
        rfl

/-- Claim C8: for a successfully fetched article document with no node
matching the author-metadata marker, whenever extraction yields a record at
all, that record's author list is exactly `["NOT FOUND"]`. -/
theorem C8_author_sentinel (url : String) (aid : Nat) (doc : ArticleDoc)
    (rec : Article) (hauthor : doc.authorNode = none)
    (hparse : html_parser_parse ⟨true, doc⟩ (article_init url aid) = some rec) :
    rec.author = ["NOT FOUND"] := by
  have h2 : fill_article_with_meta_information doc
      (fill_article_with_text doc (article_init url aid)) = some rec := hparse
  rw [fill_meta_author doc _ rec hauthor h2]
  rfl

/-- Witness for C8_author_sentinel: a successful fetch of a page with no
author-metadata node. -/
theorem C8_author_sentinel_witness :
    ({ article_init "https://x.ru/a" 1 with
        author := ["NOT FOUND"] } : Article).author = ["NOT FOUND"] :=
  C8_author_sentinel "https://x.ru/a" 1 emptyArticleDoc
    { article_init "https://x.ru/a" 1 with author := ["NOT FOUND"] }
    rfl rfl
